import Mathlib

/-!
Shallow embedding of the newsletter-agent script (`src/main.py`).

The script's observable behavior is modelled as pure Lean functions:

* Module startup (lines 20-30): reads two environment keys and raises
  `ValueError` when either is missing or empty (Python truthiness).
* Module-level agent construction with fallback (lines 33-86): tries to
  build a tool-equipped agent, on exception builds a tool-less agent,
  on a second exception leaves `newsletter_agent = None`.  External
  construction outcomes are inputs (`Option String` = failure reason).
* `NewsletterGenerator` (lines 88-186): the core routine.  The external
  `newsletter_agent.run` call is an input of type `String → Except PyExc α`;
  the wall clock (Python `datetime.now()` and the derived `strftime`
  renderings) is an input of type `DateStrings`.  The returned `GenTrace`
  records, besides the result, the prompt actually sent and how many times
  `run` was invoked, so that at-most-once invocation is provable.

String literals are transcribed byte-for-byte from the Python source
(f-strings become `++`-chains of their literal chunks and substituted
expressions).
-/

set_option maxRecDepth 100000

namespace NewsletterApp

/-- Exceptions of the Python script, by constructor class: `ValueError`,
`RuntimeError` (with the `from e` cause chain), and any other `Exception`. -/
inductive PyExc where
  | valueError (msg : String)
  | runtimeError (msg : String) (cause : Option PyExc)
  | otherError (msg : String)

/-- Python `str(e)` on an exception: its message. -/
def PyExc.str : PyExc → String
  | .valueError m => m
  | .runtimeError m _ => m
  | .otherError m => m

/-- Python truthiness of an environment lookup (`os.getenv` returns `None`
when unset): `None` and the empty string are falsy. -/
def truthyEnv : Option String → Bool
  | none => false
  | some s => !s.isEmpty

/-- Message of the `ValueError` raised at line 25 of `src/main.py`. -/
def firecrawlKeyError : String :=
  "FIRECRAWL_API_KEY environment variable is not set. Please set it in your .env file or environment."

/-- Message of the `ValueError` raised at line 27 of `src/main.py`. -/
def googleKeyError : String :=
  "GOOGLE_API_KEY environment variable is not set. Please set it in your .env file or environment."

/-- Constructor arguments of an `agno` `Agent` that the claims observe:
the Gemini model identifier, the bound tool classes, and the description. -/
structure AgentConfig where
  modelId : String
  toolNames : List String
  description : String
  deriving Repr, DecidableEq

/-- The agent built at lines 34-73: Gemini `gemini-1.5-flash` with
`FirecrawlTools`. -/
def primary_agent_config : AgentConfig :=
  { modelId := "gemini-1.5-flash"
    toolNames := ["FirecrawlTools"]
    description := "You are NewsletterResearch-X, an elite research assistant specializing in discovering and extracting high-quality, recent content for compelling newsletters." }

/-- The fallback agent built at lines 79-82: same Gemini model id, no tools. -/
def fallback_agent_config : AgentConfig :=
  { modelId := "gemini-1.5-flash"
    toolNames := []
    description := "Newsletter research assistant" }

/-- Module-level `newsletter_agent` initialization (lines 33-86): try the
tool-equipped agent; on any exception try the tool-less agent; on a second
exception the global is `None`.  Each argument is the external construction
outcome (`some reason` = the constructor raised). -/
def initNewsletterAgent (primaryFailure fallbackFailure : Option String) :
    Option AgentConfig :=
  match primaryFailure with
  | none => some primary_agent_config
  | some _ =>
    match fallbackFailure with
    | none => some fallback_agent_config
    | some _ => none

/-- Module import sequence (lines 20-86): key validation happens at lines
24-27, before the construction attempts at lines 33-86, so a missing key
raises and no construction outcome is ever consulted. -/
def moduleStartup (firecrawlKey googleKey : Option String)
    (primaryFailure fallbackFailure : Option String) :
    Except String (Option AgentConfig) :=
  if truthyEnv firecrawlKey = false then .error firecrawlKeyError
  else if truthyEnv googleKey = false then .error googleKeyError
  else .ok (initNewsletterAgent primaryFailure fallbackFailure)

/-- The `strftime` renderings derived from `datetime.now()` inside
`NewsletterGenerator` (lines 125-134): `today`, `today - 1 hour`
(`%Y-%m-%d %H:00`), `yesterday`, `week_ago`, `today - 30 days`,
`today - 365 days` (all `%Y-%m-%d` unless noted). -/
structure DateStrings where
  today : String
  hourAgo : String
  yesterday : String
  weekAgo : String
  monthAgo : String
  yearAgo : String
  deriving Repr, DecidableEq

/-- The effective recency mapping (lines 129-135): a dict lookup with
default `"recent"`.  (The identical-keyed dict at lines 113-119 is a dead
store, overwritten by this one before use.) -/
def time_context (time_range : String) (d : DateStrings) : String :=
  if time_range = "qdr:h" then "past hour" ++ " (since " ++ d.hourAgo ++ ")"
  else if time_range = "qdr:d" then "past 24 hours" ++ " (since " ++ d.yesterday ++ ")"
  else if time_range = "qdr:w" then "past week" ++ " (since " ++ d.weekAgo ++ ")"
  else if time_range = "qdr:m" then "past month" ++ " (since " ++ d.monthAgo ++ ")"
  else if time_range = "qdr:y" then "past year" ++ " (since " ++ d.yearAgo ++ ")"
  else "recent"

/-- One `firecrawl_search(...)` block of the prompt f-string (lines 143-148,
151-156, 159-164); the three blocks differ only in the query suffix after
the topic (" breaking news", " latest news 2024", " recent developments"). -/
def searchBlock (topic time_range : String) (search_limit : Nat)
    (querySuffix : String) : String :=
  "firecrawl_search(\n               query=\"" ++ topic ++ querySuffix ++
  "\",\n               tbs=\"" ++ time_range ++ "\",\n               " ++
  "limit=" ++ toString search_limit ++ "," ++
  "\n               formats=[\"markdown\", \"links\"]\n           )"

/-- The `enhanced_topic` prompt f-string (lines 137-176), transcribed
byte-for-byte; interior blank lines of the triple-quoted literal carry the
8-space indentation of the source. -/
def enhanced_topic (topic : String) (search_limit : Nat)
    (time_range : String) (d : DateStrings) : String :=
  "\n        SEARCH TASK: Find recent articles about " ++ topic ++
  "\n        \n        You MUST use the firecrawl_search function with these exact parameters:\n        \n        1. FIRST SEARCH (Breaking news):\n           " ++
  searchBlock topic time_range search_limit " breaking news" ++
  "\n        \n        2. SECOND SEARCH (Latest developments):\n           " ++
  searchBlock topic time_range search_limit " latest news 2024" ++
  "\n        \n        3. THIRD SEARCH (Recent announcements):\n           " ++
  searchBlock topic time_range search_limit " recent developments" ++
  "\n        \n        TIME FILTER: " ++ time_range ++ " = " ++
  time_context time_range d ++
  "\n        TODAY\x27S DATE: " ++ d.today ++
  "\n        \n        REQUIREMENTS:\n        - Only include articles from the specified timeframe: " ++
  time_context time_range d ++
  "\n        - Each article MUST include: [Article Title](full-url)\n        - Include publication date when available\n        - If no recent articles found, explicitly state the search timeframe used\n        \n        Create a newsletter with the search results, ensuring all articles are from " ++
  time_context time_range d ++ ".\n        "

/-- Content of the dictionary returned when `newsletter_agent is None`
(lines 107-110). -/
def newsletterErrorContent (topic : String) : String :=
  "# Newsletter Generator Error\n\nUnable to initialize the newsletter agent. Please check your API keys and try again.\n\nRequested topic: " ++ topic

/-- What `NewsletterGenerator` hands back: either the agent's raw response
object, or the literal error dictionary of lines 107-110. -/
inductive GenOutput (α : Type) where
  | response (payload : α)
  | errorDict (content : String) (messages : List String)
  deriving Repr, DecidableEq

/-- Observable trace of one `NewsletterGenerator` call: the normal result
or raised exception, the prompt passed to `newsletter_agent.run` (if any),
and how many times `run` was invoked. -/
structure GenTrace (α : Type) where
  result : Except PyExc (GenOutput α)
  promptSent : Option String
  runCalls : Nat

/-- Default of the `search_limit` parameter (line 88). -/
def defaultSearchLimit : Nat := 5

/-- Default of the `time_range` parameter (line 88). -/
def defaultTimeRange : String := "qdr:w"

/-- The `NewsletterGenerator` function (lines 88-186).  `agent` is the
module-level `newsletter_agent` global; `runAgent` is the external
`newsletter_agent.run` capability; `d` the clock renderings.  Per the
`try/except` at lines 104-186: a `None` agent yields the error dictionary;
a successful `run` returns its raw response; a raised `ValueError`
propagates unchanged; any other exception is re-raised as
`RuntimeError("Newsletter generation failed: %s" % e)` with cause `e`. -/
def NewsletterGenerator {α : Type} (agent : Option AgentConfig)
    (runAgent : String → Except PyExc α) (d : DateStrings)
    (topic : String) (search_limit : Nat) (time_range : String) :
    GenTrace α :=
  match agent with
  | none =>
      { result := .ok (.errorDict (newsletterErrorContent topic) [])
        promptSent := none
        runCalls := 0 }
  | some _ =>
      let prompt := enhanced_topic topic search_limit time_range d
      match runAgent prompt with
      | .ok response =>
          { result := .ok (.response response)
            promptSent := some prompt
            runCalls := 1 }
      | .error (.valueError m) =>
          { result := .error (.valueError m)
            promptSent := some prompt
            runCalls := 1 }
      | .error e =>
          { result := .error (.runtimeError ("Newsletter generation failed: " ++ e.str) (some e))
            promptSent := some prompt
            runCalls := 1 }

/-- Classifier for the spec's `GenerationError` shape: a raised
`RuntimeError` wrapper. -/
def isWrappedGenerationError {α : Type} : Except PyExc (GenOutput α) → Bool
  | .error (.runtimeError _ _) => true
  | _ => false

/-- Substring relation on strings, via the underlying character lists. -/
def strContains (s sub : String) : Prop := sub.data <:+: s.data

instance (s sub : String) : Decidable (strContains s sub) :=
  inferInstanceAs (Decidable (sub.data <:+: s.data))

theorem strContains_self (s : String) : strContains s s :=
  ⟨[], [], by simp⟩

theorem strContains_appL {s sub : String} (t : String)
    (h : strContains s sub) : strContains (s ++ t) sub := by
  obtain ⟨u, v, huv⟩ := h
  exact ⟨u, v ++ t.data, by rw [String.data_append, ← huv]; simp⟩

theorem strContains_appR {t sub : String} (s : String)
    (h : strContains t sub) : strContains (s ++ t) sub := by
  obtain ⟨u, v, huv⟩ := h
  exact ⟨s.data ++ u, v, by rw [String.data_append, ← huv]; simp⟩

theorem strContains_trans {s t u : String}
    (hst : strContains s t) (htu : strContains t u) : strContains s u :=
  List.IsInfix.trans htu hst

theorem strContains_intro (s pre sub post : String)
    (h : s = pre ++ sub ++ post) : strContains s sub := by
  subst h
  exact ⟨pre.data, post.data, by simp [String.data_append]⟩

/-- A three-part concatenation is never equal to a string shorter than its
first part. -/
theorem append3_ne (p mid s target : String)
    (h : target.length < p.length) : p ++ mid ++ s ≠ target := by
  intro he
  have hl := congrArg String.length he
  rw [String.length_append, String.length_append] at hl
  omega

/-- Example clock renderings for two consecutive days, used to instantiate
theorems at concrete inputs. -/
def dEx : DateStrings :=
  { today := "2024-01-01", hourAgo := "2023-12-31 23:00"
    yesterday := "2023-12-31", weekAgo := "2023-12-25"
    monthAgo := "2023-12-02", yearAgo := "2023-01-01" }

def dEx2 : DateStrings :=
  { today := "2024-01-02", hourAgo := "2024-01-01 23:00"
    yesterday := "2024-01-01", weekAgo := "2023-12-26"
    monthAgo := "2023-12-03", yearAgo := "2023-01-02" }

/-- Discriminator for the `except ValueError` clause at line 181. -/
def PyExc.isValueError : PyExc → Bool
  | .valueError _ => true
  | _ => false

theorem searchBlock_contains_limit (t tr qs : String) (n : Nat) :
    strContains (searchBlock t tr n qs) ("limit=" ++ toString n ++ ",") := by
  apply strContains_intro _
    ("firecrawl_search(\n               query=\"" ++ t ++ qs ++
      "\",\n               tbs=\"" ++ tr ++ "\",\n               ") _
    "\n               formats=[\"markdown\", \"links\"]\n           )"
  simp only [searchBlock, String.append_assoc]

theorem time_context_qdrw_contains_past_week (d : DateStrings) :
    strContains (time_context "qdr:w" d) "past week" := by
  show strContains ("past week" ++ " (since " ++ d.weekAgo ++ ")") "past week"
  apply strContains_appL
  apply strContains_appL
  apply strContains_appL
  exact strContains_self _

theorem enhanced_topic_contains_topic (t : String) (n : Nat) (tr : String)
    (d : DateStrings) : strContains (enhanced_topic t n tr d) t := by
  unfold enhanced_topic
  apply strContains_appL
  apply strContains_appL
  apply strContains_appL
  apply strContains_appL
  apply strContains_appL
  apply strContains_appL
  apply strContains_appL
  apply strContains_appL
  apply strContains_appL
  apply strContains_appL
  apply strContains_appL
  apply strContains_appL
  apply strContains_appL
  apply strContains_appL
  apply strContains_appL
  apply strContains_appL
  apply strContains_appL
  apply strContains_appR
  exact strContains_self t

theorem enhanced_topic_contains_ctx (t : String) (n : Nat) (tr : String)
    (d : DateStrings) {sub : String} (h : strContains (time_context tr d) sub) :
    strContains (enhanced_topic t n tr d) sub := by
  unfold enhanced_topic
  apply strContains_appL
  apply strContains_appR
  exact h

theorem enhanced_topic_contains_limit (t : String) (n : Nat) (tr : String)
    (d : DateStrings) :
    strContains (enhanced_topic t n tr d) ("limit=" ++ toString n ++ ",") := by
  unfold enhanced_topic
  apply strContains_appL
  apply strContains_appL
  apply strContains_appL
  apply strContains_appL
  apply strContains_appL
  apply strContains_appL
  apply strContains_appL
  apply strContains_appL
  apply strContains_appL
  apply strContains_appL
  apply strContains_appL
  apply strContains_appL
  apply strContains_appL
  apply strContains_appL
  apply strContains_appL
  apply strContains_appR
  exact searchBlock_contains_limit t tr " breaking news" n

theorem newsletterErrorContent_contains_topic (t : String) :
    strContains (newsletterErrorContent t) t := by
  unfold newsletterErrorContent
  apply strContains_appR
  exact strContains_self t

theorem runCalls_le_one {α : Type} (agent : Option AgentConfig)
    (runAgent : String → Except PyExc α) (d : DateStrings)
    (t : String) (n : Nat) (tr : String) :
    (NewsletterGenerator agent runAgent d t n tr).runCalls ≤ 1 := by
  cases agent with
  | none => exact Nat.zero_le 1
  | some a =>
    simp only [NewsletterGenerator]
    split <;> exact Nat.le_refl 1

/-- C1: for every recognized recency code in {qdr:h, qdr:d, qdr:w, qdr:m,
qdr:y} and every clock state, the `time_context` mapping inside
`NewsletterGenerator` yields a phrase that is non-empty and distinct from
"recent", and every `time_range` outside that set yields exactly "recent". -/
theorem recencyMapping_spec (d : DateStrings) :
    (time_context "qdr:h" d ≠ "recent" ∧ time_context "qdr:h" d ≠ "") ∧
    (time_context "qdr:d" d ≠ "recent" ∧ time_context "qdr:d" d ≠ "") ∧
    (time_context "qdr:w" d ≠ "recent" ∧ time_context "qdr:w" d ≠ "") ∧
    (time_context "qdr:m" d ≠ "recent" ∧ time_context "qdr:m" d ≠ "") ∧
    (time_context "qdr:y" d ≠ "recent" ∧ time_context "qdr:y" d ≠ "") ∧
    (∀ tr : String,
      tr ∉ (["qdr:h", "qdr:d", "qdr:w", "qdr:m", "qdr:y"] : List String) →
      time_context tr d = "recent") := by
  refine ⟨⟨?_, ?_⟩, ⟨?_, ?_⟩, ⟨?_, ?_⟩, ⟨?_, ?_⟩, ⟨?_, ?_⟩, ?_⟩
  · exact append3_ne ("past hour" ++ " (since ") d.hourAgo ")" "recent" (by decide)
  · exact append3_ne ("past hour" ++ " (since ") d.hourAgo ")" "" (by decide)
  · exact append3_ne ("past 24 hours" ++ " (since ") d.yesterday ")" "recent" (by decide)
  · exact append3_ne ("past 24 hours" ++ " (since ") d.yesterday ")" "" (by decide)
  · exact append3_ne ("past week" ++ " (since ") d.weekAgo ")" "recent" (by decide)
  · exact append3_ne ("past week" ++ " (since ") d.weekAgo ")" "" (by decide)
  · exact append3_ne ("past month" ++ " (since ") d.monthAgo ")" "recent" (by decide)
  · exact append3_ne ("past month" ++ " (since ") d.monthAgo ")" "" (by decide)
  · exact append3_ne ("past year" ++ " (since ") d.yearAgo ")" "recent" (by decide)
  · exact append3_ne ("past year" ++ " (since ") d.yearAgo ")" "" (by decide)
  · intro tr htr
    have h1 : ¬ tr = "qdr:h" := fun h => htr (by simp [h])
    have h2 : ¬ tr = "qdr:d" := fun h => htr (by simp [h])
    have h3 : ¬ tr = "qdr:w" := fun h => htr (by simp [h])
    have h4 : ¬ tr = "qdr:m" := fun h => htr (by simp [h])
    have h5 : ¬ tr = "qdr:y" := fun h => htr (by simp [h])
    simp [time_context, h1, h2, h3, h4, h5]

/-- C1 witness: the theorem applied at a concrete clock and at the concrete
unrecognized code "qdr:z". -/
theorem recencyMapping_spec_check :
    time_context "qdr:z" dEx = "recent" ∧ time_context "qdr:w" dEx ≠ "recent" :=
  ⟨(recencyMapping_spec dEx).2.2.2.2.2 "qdr:z" (by decide),
   (recencyMapping_spec dEx).2.2.1.1⟩

/-- C2 counterexample: two calls with identical topic "AI", identical limit
5, and identical recency phrase "recent" (the unrecognized code "qdr:z" on
two different days) build different prompt strings, because the prompt also
embeds the current date.  This refutes the claim that topic, limit and
recency phrase alone determine the prompt byte-for-byte. -/
theorem prompt_not_determined_by_phrase :
    time_context "qdr:z" dEx = "recent" ∧
    time_context "qdr:z" dEx2 = "recent" ∧
    enhanced_topic "AI" 5 "qdr:z" dEx ≠ enhanced_topic "AI" 5 "qdr:z" dEx2 := by
  refine ⟨rfl, rfl, ?_⟩
  decide

/-- C2 amended: prompt synthesis is deterministic in the full input tuple —
topic, result limit, raw time-range code, and the clock renderings (today's
date appears in the prompt beside the recency phrase). -/
theorem prompt_deterministic_full_inputs (t₁ t₂ : String) (n₁ n₂ : Nat)
    (tr₁ tr₂ : String) (d₁ d₂ : DateStrings)
    (ht : t₁ = t₂) (hn : n₁ = n₂) (htr : tr₁ = tr₂) (hd : d₁ = d₂) :
    enhanced_topic t₁ n₁ tr₁ d₁ = enhanced_topic t₂ n₂ tr₂ d₂ := by
  subst ht hn htr hd
  rfl

/-- C2 amended witness: the determinism theorem applied at concrete inputs. -/
theorem prompt_deterministic_full_inputs_check :
    enhanced_topic "AI" 5 "qdr:w" dEx = enhanced_topic "AI" 5 "qdr:w" dEx :=
  prompt_deterministic_full_inputs "AI" "AI" 5 5 "qdr:w" "qdr:w" dEx dEx
    rfl rfl rfl rfl

/-- C3 counterexample: when both constructions fail (reasons "primary boom"
and "fallback boom"), the module global is `None` and `NewsletterGenerator`
returns normally with the fixed error dictionary — not a raised or typed
`AgentConstructionError` — and its message contains neither failure cause. -/
theorem dual_failure_message_lacks_causes :
    initNewsletterAgent (some "primary boom") (some "fallback boom") = none ∧
    (NewsletterGenerator (none : Option AgentConfig)
        (fun _ => (.ok "resp" : Except PyExc String)) dEx "AI" 5 "qdr:w").result
      = .ok (.errorDict (newsletterErrorContent "AI") []) ∧
    ¬ strContains (newsletterErrorContent "AI") "primary boom" ∧
    ¬ strContains (newsletterErrorContent "AI") "fallback boom" := by
  refine ⟨rfl, rfl, ?_, ?_⟩ <;> decide

/-- C3 amended: if both the primary and the fallback construction fail, the
module global is `None` and `NewsletterGenerator` returns (without raising)
the fixed error dictionary, whose content names the requested topic and
advises checking API keys; the individual failure causes are not part of
the returned message. -/
theorem dual_failure_generic_dict {α : Type} (r₁ r₂ : String)
    (runAgent : String → Except PyExc α) (d : DateStrings)
    (topic : String) (n : Nat) (tr : String) :
    initNewsletterAgent (some r₁) (some r₂) = none ∧
    (NewsletterGenerator none runAgent d topic n tr).result
      = .ok (.errorDict (newsletterErrorContent topic) []) ∧
    strContains (newsletterErrorContent topic) topic := by
  exact ⟨rfl, rfl, newsletterErrorContent_contains_topic topic⟩

/-- C4 counterexample: a `ValueError` raised by the agent's run call is
re-raised unchanged by the `except ValueError` clause, not wrapped into the
`RuntimeError` (`GenerationError`) shape; this refutes the claim for every
exception. -/
theorem valueError_not_wrapped :
    (NewsletterGenerator (some primary_agent_config)
        (fun _ => (.error (.valueError "bad config") : Except PyExc String))
        dEx "AI" 5 "qdr:w").result = .error (.valueError "bad config") ∧
    isWrappedGenerationError
      (NewsletterGenerator (some primary_agent_config)
        (fun _ => (.error (.valueError "bad config") : Except PyExc String))
        dEx "AI" 5 "qdr:w").result = false := by
  exact ⟨rfl, rfl⟩

/-- C4 amended: the run capability is invoked at most once per call with no
fallback or retry; an exception raised by the run call propagates as a
single failure — a `ValueError` unchanged, and any other exception wrapped
as `RuntimeError("Newsletter generation failed: " + str(e))` with the
original exception preserved as its cause. -/
theorem invocation_failure_single_attempt {α : Type} (a : AgentConfig)
    (runAgent : String → Except PyExc α) (d : DateStrings) (t : String)
    (n : Nat) (tr : String) (e : PyExc)
    (h : runAgent (enhanced_topic t n tr d) = .error e) :
    (NewsletterGenerator (some a) runAgent d t n tr).runCalls = 1 ∧
    (∀ agent, (NewsletterGenerator agent runAgent d t n tr).runCalls ≤ 1) ∧
    (e.isValueError = true →
      (NewsletterGenerator (some a) runAgent d t n tr).result = .error e) ∧
    (e.isValueError = false →
      (NewsletterGenerator (some a) runAgent d t n tr).result
        = .error (.runtimeError ("Newsletter generation failed: " ++ e.str) (some e))) := by
  refine ⟨?_, fun agent => runCalls_le_one agent runAgent d t n tr, ?_, ?_⟩
  · cases e <;> simp [NewsletterGenerator, h]
  · intro hv
    cases e <;> simp_all [NewsletterGenerator, h, PyExc.isValueError]
  · intro hv
    cases e <;> simp_all [NewsletterGenerator, h, PyExc.isValueError, PyExc.str]

/-- C4 amended witness: a concrete non-ValueError run failure is wrapped
with its cause, and the run capability was invoked exactly once. -/
theorem invocation_failure_single_attempt_check :
    (NewsletterGenerator (some primary_agent_config)
        (fun _ => (.error (.otherError "network down") : Except PyExc String))
        dEx "AI" 5 "qdr:w").result
      = .error (.runtimeError ("Newsletter generation failed: " ++ "network down")
          (some (.otherError "network down"))) ∧
    (NewsletterGenerator (some primary_agent_config)
        (fun _ => (.error (.otherError "network down") : Except PyExc String))
        dEx "AI" 5 "qdr:w").runCalls = 1 :=
  ⟨(invocation_failure_single_attempt primary_agent_config _ dEx "AI" 5 "qdr:w"
      (.otherError "network down") rfl).2.2.2 rfl,
   (invocation_failure_single_attempt primary_agent_config _ dEx "AI" 5 "qdr:w"
      (.otherError "network down") rfl).1⟩

/-- C5: for every positive limit N, the prompt handed to the agent embeds
`limit=N,` in its `firecrawl_search` parameter block, the number unchanged. -/
theorem search_limit_passed_unchanged (t : String) (n : Nat) (tr : String)
    (d : DateStrings) (h : 0 < n) :
    strContains (enhanced_topic t n tr d) ("limit=" ++ toString n ++ ",") :=
  enhanced_topic_contains_limit t n tr d

/-- C5 witness: the theorem applied at the concrete limit 7. -/
theorem search_limit_passed_unchanged_check :
    strContains (enhanced_topic "AI" 7 "qdr:w" dEx) ("limit=" ++ toString 7 ++ ",") :=
  search_limit_passed_unchanged "AI" 7 "qdr:w" dEx (by decide)

/-- C6: when the agent exists and its run call returns without raising, the
generator returns the agent's raw response as the payload, unmodified, with
exactly one run invocation. -/
theorem success_returns_raw_response {α : Type} (a : AgentConfig)
    (runAgent : String → Except PyExc α) (d : DateStrings) (t : String)
    (n : Nat) (tr : String) (r : α)
    (h : runAgent (enhanced_topic t n tr d) = .ok r) :
    (NewsletterGenerator (some a) runAgent d t n tr).result = .ok (.response r) ∧
    (NewsletterGenerator (some a) runAgent d t n tr).runCalls = 1 := by
  constructor <;> simp [NewsletterGenerator, h]

/-- C6 witness: the theorem applied to a run call returning the concrete
payload "the newsletter". -/
theorem success_returns_raw_response_check :
    (NewsletterGenerator (some primary_agent_config)
        (fun _ => (.ok "the newsletter" : Except PyExc String))
        dEx "AI" 5 "qdr:w").result = .ok (.response "the newsletter") ∧
    (NewsletterGenerator (some primary_agent_config)
        (fun _ => (.ok "the newsletter" : Except PyExc String))
        dEx "AI" 5 "qdr:w").runCalls = 1 :=
  success_returns_raw_response primary_agent_config _ dEx "AI" 5 "qdr:w"
    "the newsletter" rfl

/-- C7: calling the generator on "Latest developments in AI" with the
default parameters (limit 5, code "qdr:w") sends the agent a prompt that
contains the topic string and the phrase "past week", for every clock state
and run behavior. -/
theorem default_prompt_mentions_topic_and_past_week {α : Type}
    (a : AgentConfig) (runAgent : String → Except PyExc α) (d : DateStrings) :
    (NewsletterGenerator (some a) runAgent d "Latest developments in AI"
        defaultSearchLimit defaultTimeRange).promptSent
      = some (enhanced_topic "Latest developments in AI" 5 "qdr:w" d) ∧
    strContains (enhanced_topic "Latest developments in AI" 5 "qdr:w" d)
      "Latest developments in AI" ∧
    strContains (enhanced_topic "Latest developments in AI" 5 "qdr:w" d)
      "past week" := by
  refine ⟨?_, enhanced_topic_contains_topic _ _ _ _, ?_⟩
  · simp only [NewsletterGenerator, defaultSearchLimit, defaultTimeRange]
    split <;> rfl
  · exact enhanced_topic_contains_ctx _ _ _ _ (time_context_qdrw_contains_past_week d)

/-- C8: when the FIRECRAWL_API_KEY environment value is absent (or empty,
which Python truthiness treats the same), module startup raises the
`ValueError` naming that key, and the result does not depend on any agent
construction outcome — no construction is consulted. -/
theorem missing_firecrawl_key_blocks_startup (fire : Option String)
    (h : truthyEnv fire = false) (google pf ff : Option String) :
    moduleStartup fire google pf ff = .error firecrawlKeyError ∧
    strContains firecrawlKeyError "FIRECRAWL_API_KEY" := by
  constructor
  · simp [moduleStartup, h]
  · decide

/-- C8 witness: the theorem applied to an unset key with the other key
present and both construction outcomes arbitrary. -/
theorem missing_firecrawl_key_blocks_startup_check :
    moduleStartup none (some "g-key") none (some "x") = .error firecrawlKeyError ∧
    strContains firecrawlKeyError "FIRECRAWL_API_KEY" :=
  missing_firecrawl_key_blocks_startup none rfl (some "g-key") none (some "x")

/-- C9 counterexample: the primary and fallback constructions bind the very
same model identifier "gemini-1.5-flash"; there is no distinct "pro" tier
identifier (the primary's id does not even mention "pro"). -/
theorem tiers_share_model_identifier :
    primary_agent_config.modelId = fallback_agent_config.modelId ∧
    primary_agent_config.modelId = "gemini-1.5-flash" ∧
    ¬ strContains primary_agent_config.modelId "pro" := by
  refine ⟨rfl, rfl, ?_⟩
  decide

/-- C9 amended: the system has a primary construction path (agent with
Firecrawl tools) and a fallback path (agent without tools); both bind the
same model identifier "gemini-1.5-flash", and the agent constructed on the
fallback path is the tool-less configuration — distinguished from the
primary by its tools and description, not by its model identifier. -/
theorem fallback_binds_flash_model (r : String) :
    initNewsletterAgent (some r) none = some fallback_agent_config ∧
    initNewsletterAgent none none = some primary_agent_config ∧
    fallback_agent_config.modelId = "gemini-1.5-flash" ∧
    primary_agent_config.modelId = "gemini-1.5-flash" ∧
    fallback_agent_config.toolNames = [] ∧
    primary_agent_config.toolNames = ["FirecrawlTools"] :=
  ⟨rfl, rfl, rfl, rfl, rfl, rfl⟩

/-- C10: with the agent handle `None`, for every topic, limit, time range,
clock state and run behavior, the generator does not raise, performs no run
invocation and no prompt synthesis, and returns the dictionary whose
content names the requested topic and whose messages list is empty. -/
theorem none_agent_returns_topic_dict {α : Type}
    (runAgent : String → Except PyExc α) (d : DateStrings)
    (t : String) (n : Nat) (tr : String) :
    (NewsletterGenerator none runAgent d t n tr).result
      = .ok (.errorDict (newsletterErrorContent t) []) ∧
    (NewsletterGenerator none runAgent d t n tr).promptSent = none ∧
    (NewsletterGenerator none runAgent d t n tr).runCalls = 0 ∧
    strContains (newsletterErrorContent t) t :=
  ⟨rfl, rfl, rfl, newsletterErrorContent_contains_topic t⟩

end NewsletterApp
